import Mathlib

/-!
Verification model of the ProgSnap2Lib repository: a shallow embedding of
the two source modules, the SQLite-backed event logger (logger.py) and the
pandas-backed dataset reader (progsnap.py), together with proofs of the
behavioural properties stated in the repository specification.

Conventions of the embedding:
* Python / pandas scalar values are modelled by the type Val
  (strings, integers, booleans and a null standing for pandas NaN);
  a Python None is modelled by Option.none at the use sites
  that distinguish None from NaN.
* pandas DataFrames are lists of fixed-schema rows in file order.
* Fallible operations return Except String.
* pandas sort_values is modelled by an executable insertion sort on the
  lexicographic key of the requested columns, nulls ordered last.  For a
  multi-column key pandas sorts with a stable lexsort, so there the
  stability of the model is relied upon; for a single-column key pandas
  applies its default quicksort, which guarantees no order among equal
  keys, so the model is read as one admissible outcome and only
  outcome-invariant properties (permutation and sortedness) are asserted
  about that path.
-/

/-- Lexicographic comparison of two lists by a base Boolean comparison,
deciding ties by decidable equality.  A proper initial segment compares below its
extensions. -/
def lexBy {α : Type} [DecidableEq α] (le : α → α → Bool) : List α → List α → Bool
  | [], _ => true
  | _ :: _, [] => false
  | a :: as, b :: bs => if a = b then lexBy le as bs else le a b

/-- Keep the first occurrence of each element, dropping later duplicates.
Models pandas Series.unique, which returns values in order of first
appearance.  The seen accumulator holds elements already emitted. -/
def dedupFirstAux {α : Type} [DecidableEq α] (seen : List α) : List α → List α
  | [] => []
  | x :: xs =>
    if x ∈ seen then dedupFirstAux seen xs
    else x :: dedupFirstAux (x :: seen) xs

/-- Entry point of the first-occurrence deduplication. -/
def dedupFirst {α : Type} [DecidableEq α] (l : List α) : List α :=
  dedupFirstAux [] l

/-- Code-point comparison of characters. -/
def charLeb (a b : Char) : Bool := decide (a.toNat ≤ b.toNat)

/-- Lexicographic string comparison by code points (the order pandas uses
when sorting a string column). -/
def strLeb (a b : String) : Bool := lexBy charLeb a.data b.data

/-- A pandas / Python scalar cell value: string, integer, boolean, or null
(standing for NaN, the value pandas places in empty cells). -/
inductive Val where
  | str (s : String)
  | int (i : Int)
  | bool (b : Bool)
  | null
deriving DecidableEq, Repr

/-- Rank used to compare values of different shapes; within a sorted pandas
column all values have one shape, so only the within-shape cases matter.
Null ranks last, matching the default na last placement of sort_values. -/
def Val.rank : Val → Nat
  | .str _ => 0
  | .int _ => 1
  | .bool _ => 2
  | .null => 3

/-- Total comparison on cell values used for sort keys. -/
def Val.leb : Val → Val → Bool
  | .str a, .str b => strLeb a b
  | .int a, .int b => decide (a ≤ b)
  | .bool a, .bool b => !a || b
  | .null, .null => true
  | a, b => decide (a.rank < b.rank)

/-- Python truthiness of a cell value (note that NaN is truthy in Python). -/
def Val.truthy : Val → Bool
  | .str s => !(s == "")
  | .int i => !(i == 0)
  | .bool b => b
  | .null => true

/-- Elementwise pandas equality of a cell with a scalar: NaN compares
unequal to everything, including NaN itself. -/
def valEqB : Val → Val → Bool
  | .null, _ => false
  | _, .null => false
  | a, b => a == b

/-- Python str.split with a one-character separator, over the character
list: an empty input yields one empty field. -/
def splitSepAux (sep : Char) : List Char → List Char → List String
  | [], acc => [String.mk acc.reverse]
  | c :: cs, acc =>
    if c = sep then String.mk acc.reverse :: splitSepAux sep cs []
    else splitSepAux sep cs (c :: acc)

/-- Python str.split(sep) for a one-character separator. -/
def splitOnSep (sep : Char) (s : String) : List String :=
  splitSepAux sep s.data []

/-!
## Event Store model (logger.py, class SQLiteLogger)

The SQLite database is modelled as four row lists plus the seeded metadata
table.  Rows appear in insertion (rowid) order.  An INTEGER PRIMARY KEY
column is modelled by SQLite's rowid rule: a fresh row receives
largest-existing-id + 1.
-/

/-- A row of the CodeStates table: CodeStateID INTEGER PRIMARY KEY,
Code TEXT (nullable). -/
structure CodeRow where
  id : Nat
  code : Option String
deriving DecidableEq, Repr

/-- A row of the MainTable, mirroring MAIN_TABLE_COLUMNS of logger.py.
EventID is the INTEGER PRIMARY KEY; every other column is nullable. -/
structure MainRow where
  eventID : Nat
  subjectID : Option String
  problemID : Option String
  assignmentID : Option String
  eventType : Option String
  codeStateID : Option Nat
  clientTimestamp : Option String
  serverTimestamp : Option String
  score : Option String
deriving DecidableEq, Repr

/-- A row of the LinkProblem table: ProblemID TEXT PRIMARY KEY,
StarterCode TEXT, Subgoals TEXT. -/
structure ProblemRow where
  problemID : String
  starterCode : Option String
  subgoals : Option String
deriving DecidableEq, Repr

/-- A row of the LinkSubject table: SubjectID TEXT PRIMARY KEY,
IsInterventionGroup INTEGER. -/
structure SubjectRow where
  subjectID : String
  isInterventionGroup : Int
deriving DecidableEq, Repr

/-- The persistent state of the SQLite store: the five tables created by
create_tables, each as a list of rows in rowid order. -/
structure LoggerState where
  codeStates : List CodeRow
  mainTable : List MainRow
  problems : List ProblemRow
  subjects : List SubjectRow
  metadata : List (String × String)
deriving DecidableEq, Repr

/-- The store created by SQLiteLogger.__init__ on a fresh path: empty
tables, with DatasetMetadata seeded once by __add_metadata. -/
def init_logger : LoggerState :=
  { codeStates := []
    mainTable := []
    problems := []
    subjects := []
    metadata :=
      [(("Version"), ("8.0")),
       (("IsEventOrderingConsistent"), ("1")),
       (("EventOrderScope"), ("Global")),
       (("EventOrderScopeColumns"), ("")),
       (("CodeStateRepresentation"), ("Sqlite"))] }

/-- The rowid SQLite assigns to the next row inserted into CodeStates:
largest existing CodeStateID plus one. -/
def next_code_id (s : LoggerState) : Nat :=
  (s.codeStates.map (·.id)).foldr max 0 + 1

/-- The rowid SQLite assigns to the next row inserted into MainTable. -/
def next_event_id (s : LoggerState) : Nat :=
  (s.mainTable.map (·.eventID)).foldr max 0 + 1

/-- SQLiteLogger.__get_codestate_id: look the code text up by exact match
(SQL Code = ?, which matches no row when the argument is null), returning
the matched CodeStateID, or insert a fresh CodeStates row and return its
new id.  Returns the id together with the updated store. -/
def get_codestate_id (s : LoggerState) (code_state : Option String) :
    Nat × LoggerState :=
  let found : Option CodeRow :=
    match code_state with
    | some c => s.codeStates.find? (fun r => r.code == some c)
    | none => none
  match found with
  | some r => (r.id, s)
  | none =>
    let id := next_code_id s
    (id, { s with codeStates := s.codeStates ++ [{ id := id, code := code_state }] })

/-- The caller-supplied column map of log_event (the row_dict), restricted
to the keys the MainTable columns can pick up.  A missing key is None. -/
structure EventFields where
  codeState : Option String
  subjectID : Option String
  problemID : Option String
  assignmentID : Option String
  clientTimestamp : Option String
  serverTimestamp : Option String
  score : Option String
deriving DecidableEq, Repr

/-- SQLiteLogger.log_event: resolve the CodeState text through
__get_codestate_id, assemble the MainTable row (EventType and CodeStateID
fixed first, remaining declared columns taken from the row_dict, EventID
deleted so that SQLite assigns it), and append it. -/
def log_event (s : LoggerState) (event_type : String) (f : EventFields) :
    LoggerState :=
  let r := get_codestate_id s f.codeState
  let s1 := r.2
  let row : MainRow :=
    { eventID := next_event_id s1
      subjectID := f.subjectID
      problemID := f.problemID
      assignmentID := f.assignmentID
      eventType := some event_type
      codeStateID := some r.1
      clientTimestamp := f.clientTimestamp
      serverTimestamp := f.serverTimestamp
      score := f.score }
  { s1 with mainTable := s1.mainTable ++ [row] }

/-- SQLiteLogger.get_starter_code: select StarterCode for the ProblemID;
an absent row and a stored null both come back as None. -/
def get_starter_code (s : LoggerState) (problem_id : String) : Option String :=
  match s.problems.find? (fun r => r.problemID == problem_id) with
  | some r => r.starterCode
  | none => none

/-- SQLiteLogger.set_starter_code: INSERT OR IGNORE a bare row for the
ProblemID, then UPDATE its StarterCode unconditionally. -/
def set_starter_code (s : LoggerState) (problem_id : String)
    (starter_code : Option String) : LoggerState :=
  let inserted :=
    if s.problems.any (fun r => r.problemID == problem_id) then s.problems
    else s.problems ++ [{ problemID := problem_id, starterCode := none, subgoals := none }]
  { s with problems :=
      inserted.map (fun r =>
        if r.problemID == problem_id then { r with starterCode := starter_code } else r) }

/-- SQLiteLogger.get_or_set_subject_condition: a None subject id returns
the argument untouched; otherwise the stored IsInterventionGroup is
returned if the Subject row exists, and otherwise the row is created with
the supplied condition, which is returned.  Returns the condition together
with the updated store. -/
def get_or_set_subject_condition (s : LoggerState) (subject_id : Option String)
    (condition_to_set : Int) : Int × LoggerState :=
  match subject_id with
  | none => (condition_to_set, s)
  | some sid =>
    match s.subjects.find? (fun r => r.subjectID == sid) with
    | some r => (r.isInterventionGroup, s)
    | none =>
      (condition_to_set,
       { s with subjects := s.subjects ++ [{ subjectID := sid, isInterventionGroup := condition_to_set }] })

/-!
## Dataset Reader model (progsnap.py, class ProgSnap2Dataset)

A loaded dataset is its three parsed tables.  The main table rows carry the
columns the reader touches; a column absent from the file is all-null.
sort_values is modelled as a stable sort (insertion sort) by the
lexicographic key of the named columns; naming a column outside the schema
is a KeyError, as in pandas.
-/

/-- A parsed row of MainTable.csv, with the columns the reader uses. -/
structure DRow where
  eventID : Val
  subjectID : Val
  problemID : Val
  codeStateID : Val
  order : Val
  score : Val
deriving DecidableEq, Repr

/-- The column labels of the modelled main table. -/
def mainCols : List String :=
  [("EventID"), ("SubjectID"), ("ProblemID"), ("CodeStateID"), ("Order"), ("Score")]

/-- Column access by label on a main-table row (the label is assumed to be
one of mainCols; callers outside that set fail before reaching this). -/
def DRow.getCol (r : DRow) (c : String) : Val :=
  if c == ("EventID") then r.eventID
  else if c == ("SubjectID") then r.subjectID
  else if c == ("ProblemID") then r.problemID
  else if c == ("CodeStateID") then r.codeStateID
  else if c == ("Order") then r.order
  else r.score

/-- A parsed row of CodeStates.csv. -/
structure CSRow where
  codeStateID : Val
  code : Val
deriving DecidableEq, Repr

/-- A ProgSnap2 dataset directory as parsed: MainTable.csv rows in file
order, CodeStates.csv rows, and DatasetMetadata.csv property/value rows. -/
structure Dataset where
  mainRows : List DRow
  codeStates : List CSRow
  metadata : List (String × Val)
deriving DecidableEq, Repr

/-- ProgSnap2Dataset.get_metadata_property: the Value entries of rows whose
Property matches; exactly one yields it, several raise, none falls back to
the documented defaults (False, the string None, the empty string) for the
three ordering properties and Python None otherwise.  The outer Option is
Python None. -/
def get_metadata_property (d : Dataset) (property : String) :
    Except String (Option Val) :=
  match (d.metadata.filter (fun p => p.1 == property)).map (fun p => p.2) with
  | [v] => Except.ok (some v)
  | [] =>
    if property == ("IsEventOrderingConsistent") then Except.ok (some (Val.bool false))
    else if property == ("EventOrderScope") then Except.ok (some (Val.str ("None")))
    else if property == ("EventOrderScopeColumns") then Except.ok (some (Val.str ("")))
    else Except.ok none
  | _ => Except.error (("Multiple values for property: ") ++ property)

/-- Python truthiness of a get_metadata_property result. -/
def truthyOpt : Option Val → Bool
  | some v => v.truthy
  | none => false

/-- The lexicographic sort key of a row for a list of column labels. -/
def keyOf (cols : List String) (r : DRow) : List Val :=
  cols.map r.getCol

/-- Row comparison by the lexicographic key of the given columns. -/
def rowLe (cols : List String) (a b : DRow) : Bool :=
  lexBy Val.leb (keyOf cols a) (keyOf cols b)

/-- The sort relation of sort_values for a column list. -/
def rowRel (cols : List String) : DRow → DRow → Prop :=
  fun a b => rowLe cols a b = true

instance rowRelDecidable (cols : List String) : DecidableRel (rowRel cols) :=
  fun a b => instDecidableEqBool (rowLe cols a b) true

/-- DataFrame.sort_values(by=cols): a KeyError outside the schema,
otherwise an ascending sort by the lexicographic key.  The executable
model sorts by insertion, which is stable; that stability is faithful for
multi-column keys (pandas uses a stable lexsort there) but is only one
admissible outcome for single-column keys, where pandas applies its
default unstable quicksort — theorems about the single-key path therefore
assert only the permutation and sortedness of the result. -/
def sort_values (rows : List DRow) (cols : List String) :
    Except String (List DRow) :=
  if cols.all (fun c => mainCols.contains c) then
    Except.ok (List.insertionSort (rowRel cols) rows)
  else Except.error (("KeyError: a sort column is not in the table"))

/-- ProgSnap2Dataset.get_main_table: load the rows, and if the metadata
declares consistent event ordering, sort globally by Order, or for
Restricted scope by the semicolon-separated scope columns then Order,
raising when the scope columns are declared empty.  Any other scope leaves
file order. -/
def get_main_table (d : Dataset) : Except String (List DRow) := do
  let flag ← get_metadata_property d ("IsEventOrderingConsistent")
  if truthyOpt flag then
    let scope ← get_metadata_property d ("EventOrderScope")
    if scope == some (Val.str ("Global")) then
      sort_values d.mainRows [("Order")]
    else if scope == some (Val.str ("Restricted")) then
      let oc ← get_metadata_property d ("EventOrderScopeColumns")
      match oc with
      | none => Except.error (("EventOrderScope is restricted by no EventOrderScopeColumns given"))
      | some (Val.str s) =>
        if s.length == 0 then
          Except.error (("EventOrderScope is restricted by no EventOrderScopeColumns given"))
        else
          sort_values d.mainRows (splitOnSep (Char.ofNat 59) s ++ [("Order")])
      | some _ => Except.error (("TypeError: object has no len"))
    else Except.ok d.mainRows
  else Except.ok d.mainRows

/-- ProgSnap2Dataset.__to_one: none for an empty selection, the single
value for a singleton, an error for more. -/
def to_one (l : List Val) (error : String) : Except String (Option Val) :=
  match l with
  | [] => Except.ok none
  | [x] => Except.ok (some x)
  | _ => Except.error error

/-- ProgSnap2Dataset.get_code_for_id: Python None yields None; otherwise
the Code of the unique CodeStates row whose CodeStateID equals the id
(pandas equality, so a NaN id matches nothing), failing when several
match. -/
def get_code_for_id (d : Dataset) (code_state_id : Option Val) :
    Except String (Option Val) :=
  match code_state_id with
  | none => Except.ok none
  | some v =>
    to_one ((d.codeStates.filter (fun r => valEqB r.codeStateID v)).map (fun r => r.code))
      (("Multiple code states match that ID."))

/-- Selecting a DataFrame item by a boolean label, as the malformed filter
in get_code_for_event_id does: the main table has only string-labelled
columns, so the lookup raises KeyError for either boolean. -/
def df_select_bool_label (_rows : List DRow) (b : Bool) :
    Except String (List DRow) :=
  Except.error (("KeyError: ") ++ toString b)

/-- ProgSnap2Dataset.get_code_for_event_id as written in the source: the
inner expression events[PS2.EventID == row_id] compares the column-name
string itself with the id, producing a plain boolean that is then used as
a column label, so the lookup raises KeyError instead of filtering rows. -/
def get_code_for_event_id (d : Dataset) (row_id : Val) :
    Except String (Option Val) := do
  let events ← get_main_table d
  let filtered ← df_select_bool_label events (Val.str ("EventID") == row_id)
  let code_state_id ← to_one (filtered.map (fun r => r.codeStateID))
    (("Multiple rows match that ID."))
  get_code_for_id d code_state_id

/-- ProgSnap2Dataset.get_trace: filter the (ordered) main table to the
subject/problem pair, deduplicate the CodeStateIDs keeping first
occurrences (Series.unique), and map each id to its code text. -/
def get_trace (d : Dataset) (subject_id problem_id : Val) :
    Except String (List (Option Val)) := do
  let events ← get_main_table d
  let rows := events.filter
    (fun r => valEqB r.subjectID subject_id && valEqB r.problemID problem_id)
  let ids := dedupFirst (rows.map (fun r => r.codeStateID))
  ids.mapM (fun i => get_code_for_id d (some i))

/-- ProgSnap2Dataset.save_subset, restricted to the three tables the claim
is about: the transformed main table is written as-is, the code-states
file keeps exactly the rows whose CodeStateID is among the surviving
main-table ids (Series.isin, under which NaN matches NaN), and the
metadata table is written unchanged.  The result triple is the contents of
the three written files. -/
def save_subset (d : Dataset) (main_table_filterer : List DRow → List DRow) :
    Except String (List DRow × List CSRow × List (String × Val)) := do
  let tbl ← get_main_table d
  let main := main_table_filterer tbl
  let ids := dedupFirst (main.map (fun r => r.codeStateID))
  let code_states := d.codeStates.filter (fun r => ids.contains r.codeStateID)
  Except.ok (main, code_states, d.metadata)

/-!
## Concrete example data used by the specification's testable properties
-/

/-- An event row_dict carrying only a CodeState text (or nothing). -/
def fields_with (c : Option String) : EventFields :=
  { codeState := c
    subjectID := none
    problemID := none
    assignmentID := none
    clientTimestamp := none
    serverTimestamp := none
    score := none }

/-- A store that already holds one snapshot with id 1 and code x. -/
def ex_store1 : LoggerState :=
  { codeStates := [{ id := 1, code := some ("x") }]
    mainTable := []
    problems := []
    subjects := []
    metadata := [] }

/-- The Restricted-ordering example dataset of the specification:
scope columns SubjectID, rows (B,2), (A,1), (A,2) in file order. -/
def ds_restricted : Dataset :=
  { mainRows :=
      [{ eventID := Val.int 1, subjectID := Val.str ("B"), problemID := Val.null,
         codeStateID := Val.null, order := Val.int 2, score := Val.null },
       { eventID := Val.int 2, subjectID := Val.str ("A"), problemID := Val.null,
         codeStateID := Val.null, order := Val.int 1, score := Val.null },
       { eventID := Val.int 3, subjectID := Val.str ("A"), problemID := Val.null,
         codeStateID := Val.null, order := Val.int 2, score := Val.null }]
    codeStates := []
    metadata :=
      [(("IsEventOrderingConsistent"), Val.str ("true")),
       (("EventOrderScope"), Val.str ("Restricted")),
       (("EventOrderScopeColumns"), Val.str ("SubjectID"))] }

/-- A dataset whose metadata records the ordering flag as the string
false — a non-empty string, hence truthy in Python — with Global scope
and rows whose Order column is out of file order. -/
def ds_false_flag : Dataset :=
  { mainRows :=
      [{ eventID := Val.int 1, subjectID := Val.null, problemID := Val.null,
         codeStateID := Val.null, order := Val.int 2, score := Val.null },
       { eventID := Val.int 2, subjectID := Val.null, problemID := Val.null,
         codeStateID := Val.null, order := Val.int 1, score := Val.null }]
    codeStates := []
    metadata :=
      [(("IsEventOrderingConsistent"), Val.str ("false")),
       (("EventOrderScope"), Val.str ("Global"))] }

/-- The trace example dataset: three events of one subject/problem pair
referencing CodeStateIDs 5, 5, 7 in row order. -/
def ds_trace : Dataset :=
  { mainRows :=
      [{ eventID := Val.int 1, subjectID := Val.str ("S"), problemID := Val.str ("P"),
         codeStateID := Val.int 5, order := Val.null, score := Val.null },
       { eventID := Val.int 2, subjectID := Val.str ("S"), problemID := Val.str ("P"),
         codeStateID := Val.int 5, order := Val.null, score := Val.null },
       { eventID := Val.int 3, subjectID := Val.str ("S"), problemID := Val.str ("P"),
         codeStateID := Val.int 7, order := Val.null, score := Val.null }]
    codeStates :=
      [{ codeStateID := Val.int 5, code := Val.str ("c5") },
       { codeStateID := Val.int 7, code := Val.str ("c7") }]
    metadata := [] }

/-- A dataset declaring Restricted scope but no scope columns at all. -/
def ds_empty_cols : Dataset :=
  { mainRows :=
      [{ eventID := Val.int 1, subjectID := Val.null, problemID := Val.null,
         codeStateID := Val.null, order := Val.int 1, score := Val.null }]
    codeStates := []
    metadata :=
      [(("IsEventOrderingConsistent"), Val.str ("1")),
       (("EventOrderScope"), Val.str ("Restricted"))] }

/-- A dataset with one event (EventID 1, CodeStateID 5) and its snapshot. -/
def ds_event : Dataset :=
  { mainRows :=
      [{ eventID := Val.int 1, subjectID := Val.null, problemID := Val.null,
         codeStateID := Val.int 5, order := Val.null, score := Val.null }]
    codeStates := [{ codeStateID := Val.int 5, code := Val.str ("x") }]
    metadata := [] }

/-- The subset example dataset: one scoring row and one non-scoring row,
each with its own snapshot. -/
def ds_subset : Dataset :=
  { mainRows :=
      [{ eventID := Val.int 1, subjectID := Val.null, problemID := Val.null,
         codeStateID := Val.int 1, order := Val.null, score := Val.int 1 },
       { eventID := Val.int 2, subjectID := Val.null, problemID := Val.null,
         codeStateID := Val.int 2, order := Val.null, score := Val.int 0 }]
    codeStates :=
      [{ codeStateID := Val.int 1, code := Val.str ("a") },
       { codeStateID := Val.int 2, code := Val.str ("b") }]
    metadata := [] }

/-- The Score-positive row filter of the subset example. -/
def score_pos_filterer (rows : List DRow) : List DRow :=
  rows.filter (fun r => valEqB r.score (Val.int 1))

/-- The store after logging print(1), print(1), print(2) on a fresh db. -/
def three_prints : LoggerState :=
  log_event
    (log_event (log_event init_logger ("Submit") (fields_with (some ("print(1)"))))
      ("Submit") (fields_with (some ("print(1)"))))
    ("Submit") (fields_with (some ("print(2)")))

/-- The store after three code-less log_event calls on a fresh db. -/
def three_nulls : LoggerState :=
  log_event
    (log_event (log_event init_logger ("Submit") (fields_with none))
      ("Submit") (fields_with none))
    ("Submit") (fields_with none)

/-!
## Order and deduplication lemmas
-/

theorem lexBy_refl {α : Type} [DecidableEq α] (le : α → α → Bool) :
    ∀ x : List α, lexBy le x x = true := by
  intro x
  induction x with
  | nil => rfl
  | cons a as ih => simp [lexBy, ih]

theorem lexBy_of_eq {α : Type} [DecidableEq α] (le : α → α → Bool)
    {x y : List α} (h : x = y) : lexBy le x y = true := by
  subst h
  exact lexBy_refl le x

theorem lexBy_trans {α : Type} [DecidableEq α] {le : α → α → Bool}
    (htr : ∀ a b c, le a b = true → le b c = true → le a c = true)
    (hanti : ∀ a b, le a b = true → le b a = true → a = b) :
    ∀ x y z : List α, lexBy le x y = true → lexBy le y z = true →
      lexBy le x z = true := by
  intro x
  induction x with
  | nil => intro y z _ _; rfl
  | cons a as ih =>
    intro y z h1 h2
    cases y with
    | nil => simp [lexBy] at h1
    | cons b bs =>
      cases z with
      | nil => simp [lexBy] at h2
      | cons c cs =>
        simp only [lexBy] at h1 h2 ⊢
        by_cases hab : a = b
        · subst hab
          by_cases hbc : a = c
          · subst hbc
            simp only [if_pos rfl] at h1 h2 ⊢
            exact ih bs cs h1 h2
          · simp only [if_pos rfl] at h1
            simpa [hbc] using h2
        · by_cases hbc : b = c
          · subst hbc
            simpa [hab] using h1
          · simp only [if_neg hab] at h1
            simp only [if_neg hbc] at h2
            have hac : a ≠ c := by
              intro he
              subst he
              exact hab (hanti a b h1 h2)
            simp only [if_neg hac]
            exact htr a b c h1 h2

theorem lexBy_total {α : Type} [DecidableEq α] {le : α → α → Bool}
    (htot : ∀ a b, (le a b || le b a) = true) :
    ∀ x y : List α, (lexBy le x y || lexBy le y x) = true := by
  intro x
  induction x with
  | nil => intro y; rfl
  | cons a as ih =>
    intro y
    cases y with
    | nil => simp [lexBy]
    | cons b bs =>
      simp only [lexBy]
      by_cases hab : a = b
      · subst hab
        simp only [if_pos rfl]
        exact ih bs
      · simp only [if_neg hab, if_neg (Ne.symm hab)]
        exact htot a b

theorem lexBy_antisymm {α : Type} [DecidableEq α] {le : α → α → Bool}
    (hanti : ∀ a b, le a b = true → le b a = true → a = b) :
    ∀ x y : List α, lexBy le x y = true → lexBy le y x = true → x = y := by
  intro x
  induction x with
  | nil =>
    intro y _ h2
    cases y with
    | nil => rfl
    | cons b bs => simp [lexBy] at h2
  | cons a as ih =>
    intro y h1 h2
    cases y with
    | nil => simp [lexBy] at h1
    | cons b bs =>
      simp only [lexBy] at h1 h2
      by_cases hab : a = b
      · subst hab
        simp only [if_pos rfl] at h1 h2
        exact congrArg (a :: ·) (ih bs h1 h2)
      · simp only [if_neg hab, if_neg (Ne.symm hab)] at h1 h2
        exact absurd (hanti a b h1 h2) hab

theorem charLeb_trans (a b c : Char) (h1 : charLeb a b = true)
    (h2 : charLeb b c = true) : charLeb a c = true := by
  simp only [charLeb, decide_eq_true_eq] at h1 h2 ⊢
  exact Nat.le_trans h1 h2

theorem charLeb_antisymm (a b : Char) (h1 : charLeb a b = true)
    (h2 : charLeb b a = true) : a = b := by
  simp only [charLeb, decide_eq_true_eq] at h1 h2
  exact Char.ext (UInt32.ext (Nat.le_antisymm h1 h2))

theorem charLeb_total (a b : Char) : (charLeb a b || charLeb b a) = true := by
  simp only [charLeb, Bool.or_eq_true, decide_eq_true_eq]
  exact Nat.le_total a.toNat b.toNat

theorem strLeb_trans (a b c : String) (h1 : strLeb a b = true)
    (h2 : strLeb b c = true) : strLeb a c = true :=
  lexBy_trans charLeb_trans charLeb_antisymm a.data b.data c.data h1 h2

theorem strLeb_antisymm (a b : String) (h1 : strLeb a b = true)
    (h2 : strLeb b a = true) : a = b :=
  String.ext (lexBy_antisymm charLeb_antisymm a.data b.data h1 h2)

theorem strLeb_total (a b : String) : (strLeb a b || strLeb b a) = true :=
  lexBy_total charLeb_total a.data b.data

theorem Val.leb_trans (a b c : Val) (h1 : a.leb b = true)
    (h2 : b.leb c = true) : a.leb c = true := by
  cases a <;> cases b <;> cases c <;>
    solve
      | rfl
      | (simp only [Val.leb] at h1 h2 ⊢
         exact strLeb_trans _ _ _ h1 h2)
      | (simp only [Val.leb, decide_eq_true_eq] at h1 h2 ⊢
         omega)
      | (rename_i x y z
         cases x <;> cases y <;> cases z <;> simp_all [Val.leb])
      | simp_all [Val.leb, Val.rank]

theorem Val.leb_antisymm (a b : Val) (h1 : a.leb b = true)
    (h2 : b.leb a = true) : a = b := by
  cases a <;> cases b <;>
    solve
      | rfl
      | (simp only [Val.leb] at h1 h2
         exact congrArg Val.str (strLeb_antisymm _ _ h1 h2))
      | (simp only [Val.leb, decide_eq_true_eq] at h1 h2
         exact congrArg Val.int (le_antisymm h1 h2))
      | (rename_i x y
         cases x <;> cases y <;> simp_all [Val.leb])
      | simp_all [Val.leb, Val.rank]

theorem Val.leb_total (a b : Val) : (a.leb b || b.leb a) = true := by
  cases a <;> cases b <;>
    solve
      | rfl
      | (simp only [Val.leb]
         exact strLeb_total _ _)
      | (simp only [Val.leb, Bool.or_eq_true, decide_eq_true_eq]
         omega)
      | (rename_i x y
         cases x <;> cases y <;> rfl)

theorem mem_dedupFirstAux {α : Type} [DecidableEq α] (seen : List α)
    (l : List α) (a : α) :
    a ∈ dedupFirstAux seen l ↔ a ∈ l ∧ a ∉ seen := by
  induction l generalizing seen with
  | nil => simp [dedupFirstAux]
  | cons x xs ih =>
    simp only [dedupFirstAux]
    by_cases hx : x ∈ seen
    · simp only [if_pos hx, ih, List.mem_cons]
      constructor
      · rintro ⟨hm, hs⟩
        exact ⟨Or.inr hm, hs⟩
      · rintro ⟨hm | hm, hs⟩
        · subst hm
          exact absurd hx hs
        · exact ⟨hm, hs⟩
    · simp only [if_neg hx, List.mem_cons, ih]
      constructor
      · rintro (he | ⟨hm, hs⟩)
        · subst he
          exact ⟨Or.inl rfl, hx⟩
        · exact ⟨Or.inr hm, fun hc => hs (Or.inr hc)⟩
      · rintro ⟨he | hm, hs⟩
        · subst he
          exact Or.inl rfl
        · by_cases hax : a = x
          · subst hax
            exact Or.inl rfl
          · exact Or.inr ⟨hm, by simp [List.mem_cons, hax, hs]⟩

theorem nodup_dedupFirstAux {α : Type} [DecidableEq α] (seen : List α)
    (l : List α) : (dedupFirstAux seen l).Nodup := by
  induction l generalizing seen with
  | nil => exact List.nodup_nil
  | cons x xs ih =>
    simp only [dedupFirstAux]
    by_cases hx : x ∈ seen
    · simpa [if_pos hx] using ih seen
    · simp only [if_neg hx, List.nodup_cons]
      refine ⟨fun hc => ?_, ih (x :: seen)⟩
      exact ((mem_dedupFirstAux (x :: seen) xs x).mp hc).2 (List.mem_cons_self x seen)

theorem sublist_dedupFirstAux {α : Type} [DecidableEq α] (seen : List α)
    (l : List α) : (dedupFirstAux seen l).Sublist l := by
  induction l generalizing seen with
  | nil => exact List.Sublist.refl []
  | cons x xs ih =>
    simp only [dedupFirstAux]
    by_cases hx : x ∈ seen
    · simpa [if_pos hx] using (ih seen).cons x
    · simpa [if_neg hx] using (ih (x :: seen)).cons₂ x

theorem mem_dedupFirst {α : Type} [DecidableEq α] (l : List α) (a : α) :
    a ∈ dedupFirst l ↔ a ∈ l := by
  simp [dedupFirst, mem_dedupFirstAux]

theorem nodup_dedupFirst {α : Type} [DecidableEq α] (l : List α) :
    (dedupFirst l).Nodup :=
  nodup_dedupFirstAux [] l

theorem sublist_dedupFirst {α : Type} [DecidableEq α] (l : List α) :
    (dedupFirst l).Sublist l :=
  sublist_dedupFirstAux [] l

theorem le_foldr_max (l : List Nat) (a : Nat) (h : a ∈ l) :
    a ≤ l.foldr max 0 := by
  induction l with
  | nil => cases h
  | cons x xs ih =>
    rcases List.mem_cons.mp h with he | hm
    · subst he
      exact Nat.le_max_left a (xs.foldr max 0)
    · exact Nat.le_trans (ih hm) (Nat.le_max_right x (xs.foldr max 0))

theorem rowLe_trans (cols : List String) (a b c : DRow)
    (h1 : rowLe cols a b = true) (h2 : rowLe cols b c = true) :
    rowLe cols a c = true :=
  lexBy_trans Val.leb_trans Val.leb_antisymm _ _ _ h1 h2

theorem rowLe_total (cols : List String) (a b : DRow) :
    (rowLe cols a b || rowLe cols b a) = true :=
  lexBy_total Val.leb_total _ _

theorem rowLe_key_antisymm (cols : List String) (a b : DRow)
    (h1 : rowLe cols a b = true) (h2 : rowLe cols b a = true) :
    keyOf cols a = keyOf cols b :=
  lexBy_antisymm Val.leb_antisymm _ _ h1 h2

theorem rowLe_of_key_eq (cols : List String) (a b : DRow)
    (h : keyOf cols a = keyOf cols b) : rowLe cols a b = true :=
  lexBy_of_eq Val.leb h

/-- Characterisation of a successful sort_values: the output is a
permutation of the input, pairwise ordered by the column key, and stable,
in the sense that the rows of any one key class keep their input order. -/
theorem sort_values_ok {rows out : List DRow} {cols : List String}
    (h : sort_values rows cols = Except.ok out) :
    out.Perm rows ∧ List.Pairwise (rowRel cols) out ∧
      ∀ k : List Val, out.filter (fun r => keyOf cols r == k) =
        rows.filter (fun r => keyOf cols r == k) := by
  unfold sort_values at h
  split at h
  case isFalse => exact absurd h (by simp)
  case isTrue =>
    have hout : out = List.insertionSort (rowRel cols) rows :=
      (Except.ok.inj h).symm
    subst hout
    haveI : IsTrans DRow (rowRel cols) := ⟨fun a b c => rowLe_trans cols a b c⟩
    haveI : IsTotal DRow (rowRel cols) := ⟨fun a b => by
      cases hab : rowLe cols a b with
      | true => exact Or.inl hab
      | false =>
        have ht := rowLe_total cols a b
        rw [hab] at ht
        simp only [Bool.false_or] at ht
        exact Or.inr ht⟩
    refine ⟨List.perm_insertionSort (rowRel cols) rows,
      List.sorted_insertionSort (rowRel cols) rows, fun k => ?_⟩
    have hpw : (rows.filter (fun r => keyOf cols r == k)).Pairwise (rowRel cols) := by
      refine List.pairwise_of_forall_mem_list fun a ha b hb => ?_
      have hka : keyOf cols a = k := by
        simpa using beq_iff_eq.mp (List.mem_filter.mp ha).2
      have hkb : keyOf cols b = k := by
        simpa using beq_iff_eq.mp (List.mem_filter.mp hb).2
      exact rowLe_of_key_eq cols a b (hka.trans hkb.symm)
    have hsub : (rows.filter (fun r => keyOf cols r == k)).Sublist
        (List.insertionSort (rowRel cols) rows) :=
      List.sublist_insertionSort hpw (List.filter_sublist rows)
    have hself : (rows.filter (fun r => keyOf cols r == k)).filter
        (fun r => keyOf cols r == k) = rows.filter (fun r => keyOf cols r == k) :=
      List.filter_eq_self.mpr fun a ha => (List.mem_filter.mp ha).2
    have hsub2 := hsub.filter (fun r => keyOf cols r == k)
    rw [hself] at hsub2
    have hlen : ((List.insertionSort (rowRel cols) rows).filter
        (fun r => keyOf cols r == k)).length =
        (rows.filter (fun r => keyOf cols r == k)).length :=
      ((List.perm_insertionSort (rowRel cols) rows).filter _).length_eq
    exact (hsub2.eq_of_length hlen.symm).symm

theorem beq_scope_global_global :
    ((some (Val.str ("Global")) : Option Val) == some (Val.str ("Global"))) = true := by
  decide

theorem beq_scope_restricted_global :
    ((some (Val.str ("Restricted")) : Option Val) == some (Val.str ("Global"))) = false := by
  decide

theorem beq_scope_restricted_restricted :
    ((some (Val.str ("Restricted")) : Option Val) == some (Val.str ("Restricted"))) = true := by
  decide

/-- get_main_table with the ordering flag falsy: rows in file order. -/
theorem get_main_table_not_ordered {d : Dataset} {v : Option Val}
    (h1 : get_metadata_property d (("IsEventOrderingConsistent")) = Except.ok v)
    (h2 : truthyOpt v = false) :
    get_main_table d = Except.ok d.mainRows := by
  simp [get_main_table, h1, h2, Bind.bind, Except.bind]

/-- get_main_table with a truthy ordering flag and Global scope delegates
to the stable sort by the Order column. -/
theorem get_main_table_global {d : Dataset} {v : Option Val}
    (h1 : get_metadata_property d (("IsEventOrderingConsistent")) = Except.ok v)
    (h2 : truthyOpt v = true)
    (h3 : get_metadata_property d (("EventOrderScope")) =
      Except.ok (some (Val.str ("Global")))) :
    get_main_table d = sort_values d.mainRows [("Order")] := by
  simp [get_main_table, h1, h2, h3, Bind.bind, Except.bind,
    beq_scope_global_global]

/-- get_main_table with a truthy ordering flag, Restricted scope and a
nonempty scope-column string delegates to the stable sort by the split
scope columns followed by Order. -/
theorem get_main_table_restricted {d : Dataset} {v : Option Val} {s : String}
    (h1 : get_metadata_property d (("IsEventOrderingConsistent")) = Except.ok v)
    (h2 : truthyOpt v = true)
    (h3 : get_metadata_property d (("EventOrderScope")) =
      Except.ok (some (Val.str ("Restricted"))))
    (h4 : get_metadata_property d (("EventOrderScopeColumns")) =
      Except.ok (some (Val.str s)))
    (h5 : s.length ≠ 0) :
    get_main_table d =
      sort_values d.mainRows (splitOnSep (Char.ofNat 59) s ++ [("Order")]) := by
  simp [get_main_table, h1, h2, h3, h4, h5, Bind.bind, Except.bind,
    beq_scope_restricted_global, beq_scope_restricted_restricted]

/-- get_main_table with a truthy ordering flag, Restricted scope and an
empty or None scope-column value raises the configuration error. -/
theorem get_main_table_restricted_empty {d : Dataset} {v : Option Val}
    {oc : Option Val}
    (h1 : get_metadata_property d (("IsEventOrderingConsistent")) = Except.ok v)
    (h2 : truthyOpt v = true)
    (h3 : get_metadata_property d (("EventOrderScope")) =
      Except.ok (some (Val.str ("Restricted"))))
    (h4 : get_metadata_property d (("EventOrderScopeColumns")) = Except.ok oc)
    (h5 : oc = none ∨ oc = some (Val.str (""))) :
    get_main_table d =
      Except.error (("EventOrderScope is restricted by no EventOrderScopeColumns given")) := by
  rcases h5 with h5 | h5 <;>
    subst h5 <;>
    simp [get_main_table, h1, h2, h3, h4, Bind.bind, Except.bind,
      beq_scope_restricted_global, beq_scope_restricted_restricted]

/-!
## Event Store lemmas
-/

theorem get_codestate_id_found {s : LoggerState} {c : String} {r : CodeRow}
    (h : s.codeStates.find? (fun x => x.code == some c) = some r) :
    get_codestate_id s (some c) = (r.id, s) := by
  unfold get_codestate_id
  simp [h]

theorem get_codestate_id_not_found {s : LoggerState} {c : String}
    (h : s.codeStates.find? (fun x => x.code == some c) = none) :
    get_codestate_id s (some c) =
      (next_code_id s,
       { s with codeStates := s.codeStates ++ [{ id := next_code_id s, code := some c }] }) := by
  unfold get_codestate_id
  simp [h]

theorem get_codestate_id_null (s : LoggerState) :
    get_codestate_id s none =
      (next_code_id s,
       { s with codeStates := s.codeStates ++ [{ id := next_code_id s, code := none }] }) :=
  rfl

theorem next_code_id_fresh (s : LoggerState) :
    ∀ r ∈ s.codeStates, r.id ≠ next_code_id s := by
  intro r hr
  have hle : r.id ≤ (s.codeStates.map (fun x => x.id)).foldr max 0 :=
    le_foldr_max _ _ (List.mem_map.mpr ⟨r, hr, rfl⟩)
  unfold next_code_id
  omega

theorem get_codestate_id_frame (s : LoggerState) (cs : Option String) :
    (get_codestate_id s cs).2.mainTable = s.mainTable ∧
    (get_codestate_id s cs).2.problems = s.problems ∧
    (get_codestate_id s cs).2.subjects = s.subjects ∧
    (get_codestate_id s cs).2.metadata = s.metadata := by
  cases cs with
  | none => exact ⟨rfl, rfl, rfl, rfl⟩
  | some c =>
    cases hf : s.codeStates.find? (fun x => x.code == some c) with
    | some r => simp [get_codestate_id_found hf]
    | none => simp [get_codestate_id_not_found hf]

theorem log_event_mainTable (s : LoggerState) (et : String) (f : EventFields) :
    ∃ row : MainRow, (log_event s et f).mainTable = s.mainTable ++ [row] ∧
      row.codeStateID = some (get_codestate_id s f.codeState).1 ∧
      (log_event s et f).codeStates = (get_codestate_id s f.codeState).2.codeStates := by
  refine
    ⟨{ eventID := next_event_id (get_codestate_id s f.codeState).2
       subjectID := f.subjectID
       problemID := f.problemID
       assignmentID := f.assignmentID
       eventType := some et
       codeStateID := some (get_codestate_id s f.codeState).1
       clientTimestamp := f.clientTimestamp
       serverTimestamp := f.serverTimestamp
       score := f.score }, ?_, rfl, rfl⟩
  show (get_codestate_id s f.codeState).2.mainTable ++ _ = _
  rw [(get_codestate_id_frame s f.codeState).1]

theorem get_codestate_id_idem (s s' : LoggerState) (c : String)
    (hcs : s'.codeStates = (get_codestate_id s (some c)).2.codeStates) :
    (get_codestate_id s' (some c)).1 = (get_codestate_id s (some c)).1 := by
  cases hfind : s.codeStates.find? (fun x => x.code == some c) with
  | some r0 =>
    have heq := get_codestate_id_found hfind
    have hsame : s'.codeStates = s.codeStates := by
      rw [hcs, heq]
    have hfind' : s'.codeStates.find? (fun x => x.code == some c) = some r0 := by
      rw [hsame, hfind]
    rw [get_codestate_id_found hfind', heq]
  | none =>
    have heq := get_codestate_id_not_found hfind
    have hcs' : s'.codeStates =
        s.codeStates ++ [{ id := next_code_id s, code := some c }] := by
      rw [hcs, heq]
    have hfind' : s'.codeStates.find? (fun x => x.code == some c) =
        some { id := next_code_id s, code := some c } := by
      rw [hcs', List.find?_append, hfind]
      simp
    rw [get_codestate_id_found hfind', heq]

/-!
## Claims about the Event Store
-/

/-- Claim C1: code-snapshot deduplication is idempotent.  For every store
and code text, a snapshot with exactly that text already present makes the
get-or-create lookup return the existing CodeStateID with the store
untouched, and otherwise exactly one new row is inserted and its fresh id
returned; hence two log_event calls with identical code text produce two
events sharing one CodeStateID, and logging print(1) twice then print(2)
once yields exactly 2 distinct snapshot ids across the 3 events. -/
theorem claim_C1_dedup_idempotent :
    (∀ (s : LoggerState) (c : String),
      (∃ r ∈ s.codeStates, r.code = some c) →
      ∃ r ∈ s.codeStates, r.code = some c ∧
        get_codestate_id s (some c) = (r.id, s)) ∧
    (∀ (s : LoggerState) (c : String),
      (∀ r ∈ s.codeStates, r.code ≠ some c) →
      get_codestate_id s (some c) =
        (next_code_id s,
         { s with codeStates :=
             s.codeStates ++ [{ id := next_code_id s, code := some c }] }) ∧
      ∀ r ∈ s.codeStates, r.id ≠ next_code_id s) ∧
    (∀ (s : LoggerState) (et1 et2 : String) (f1 f2 : EventFields) (c : String),
      f1.codeState = some c → f2.codeState = some c →
      ∃ r1 r2 : MainRow,
        (log_event (log_event s et1 f1) et2 f2).mainTable =
          s.mainTable ++ [r1, r2] ∧
        r1.codeStateID = r2.codeStateID) ∧
    (three_prints.mainTable.map (fun r => r.codeStateID) =
        [some 1, some 1, some 2] ∧
      (dedupFirst (three_prints.mainTable.map (fun r => r.codeStateID))).length = 2) := by
  refine ⟨?_, ?_, ?_, rfl, rfl⟩
  · intro s c ⟨r0, hr0m, hr0c⟩
    have hsome : (s.codeStates.find? (fun x => x.code == some c)).isSome :=
      List.find?_isSome.mpr ⟨r0, hr0m, beq_iff_eq.mpr hr0c⟩
    obtain ⟨r, hr⟩ := Option.isSome_iff_exists.mp hsome
    have hp := List.find?_some hr
    exact ⟨r, List.mem_of_find?_eq_some hr, beq_iff_eq.mp hp,
      get_codestate_id_found hr⟩
  · intro s c h
    have hnone : s.codeStates.find? (fun x => x.code == some c) = none :=
      List.find?_eq_none.mpr fun x hx => by
        simpa [beq_iff_eq] using h x hx
    exact ⟨get_codestate_id_not_found hnone, next_code_id_fresh s⟩
  · intro s et1 et2 f1 f2 c h1 h2
    obtain ⟨row1, hm1, hc1, hs1⟩ := log_event_mainTable s et1 f1
    obtain ⟨row2, hm2, hc2, hs2⟩ := log_event_mainTable (log_event s et1 f1) et2 f2
    refine ⟨row1, row2, ?_, ?_⟩
    · rw [hm2, hm1, List.append_assoc]
      rfl
    · rw [hc1, hc2, h1, h2]
      have := get_codestate_id_idem s (log_event s et1 f1) c (by rw [hs1, h1])
      rw [this]

/-- Witness for claim C1 at a concrete store: the snapshot x is already
present with id 1, so the lookup returns 1 and leaves the store as it
was. -/
theorem claim_C1_dedup_idempotent_witness :
    ∃ r ∈ ex_store1.codeStates, r.code = some ("x") ∧
      get_codestate_id ex_store1 (some ("x")) = (r.id, ex_store1) :=
  claim_C1_dedup_idempotent.1 ex_store1 ("x")
    ⟨{ id := 1, code := some ("x") }, by decide, rfl⟩

/-- Claim C10: a log_event call whose row_dict has no CodeState text never
deduplicates: the null lookup matches no row, so a fresh CodeStates row
with a brand-new id is inserted on every call, and two successive such
calls assign distinct CodeStateIDs to their events, unlike calls with
identical non-null text. -/
theorem claim_C10_null_code_never_deduped :
    (∀ s : LoggerState,
      get_codestate_id s none =
        (next_code_id s,
         { s with codeStates :=
             s.codeStates ++ [{ id := next_code_id s, code := none }] }) ∧
      ∀ r ∈ s.codeStates, r.id ≠ next_code_id s) ∧
    (∀ (s : LoggerState) (et1 et2 : String) (f1 f2 : EventFields),
      f1.codeState = none → f2.codeState = none →
      ∃ r1 r2 : MainRow,
        (log_event (log_event s et1 f1) et2 f2).mainTable =
          s.mainTable ++ [r1, r2] ∧
        r1.codeStateID ≠ r2.codeStateID ∧
        (log_event (log_event s et1 f1) et2 f2).codeStates.length =
          s.codeStates.length + 2) ∧
    (three_nulls.mainTable.map (fun r => r.codeStateID) =
      [some 1, some 2, some 3]) := by
  refine ⟨fun s => ⟨get_codestate_id_null s, next_code_id_fresh s⟩, ?_, rfl⟩
  intro s et1 et2 f1 f2 h1 h2
  obtain ⟨row1, hm1, hc1, hs1⟩ := log_event_mainTable s et1 f1
  obtain ⟨row2, hm2, hc2, hs2⟩ := log_event_mainTable (log_event s et1 f1) et2 f2
  have hgc1 := get_codestate_id_null s
  have hcs1 : (log_event s et1 f1).codeStates =
      s.codeStates ++ [{ id := next_code_id s, code := none }] := by
    rw [hs1, h1, hgc1]
  have hgc2 := get_codestate_id_null (log_event s et1 f1)
  have hid1 : (get_codestate_id s f1.codeState).1 = next_code_id s := by
    rw [h1, hgc1]
  have hlt : next_code_id s < next_code_id (log_event s et1 f1) := by
    have hmem : next_code_id s ∈ (log_event s et1 f1).codeStates.map (fun x => x.id) := by
      rw [hcs1]
      simp
    have hle := le_foldr_max _ _ hmem
    unfold next_code_id at hle ⊢
    omega
  refine ⟨row1, row2, ?_, ?_, ?_⟩
  · rw [hm2, hm1, List.append_assoc]
    rfl
  · rw [hc1, hc2, h2, hgc2, hid1]
    intro hcontra
    have : next_code_id s = next_code_id (log_event s et1 f1) :=
      Option.some_inj.mp hcontra
    omega
  · have hcs2 : (log_event (log_event s et1 f1) et2 f2).codeStates =
        (log_event s et1 f1).codeStates ++
          [{ id := next_code_id (log_event s et1 f1), code := none }] := by
      rw [hs2, h2, hgc2]
    rw [hcs2, hcs1]
    simp

/-- Witness for claim C10: two code-less log_event calls on the fresh
store append two events with distinct CodeStateIDs. -/
theorem claim_C10_null_code_never_deduped_witness :
    ∃ r1 r2 : MainRow,
      (log_event (log_event init_logger ("Submit") (fields_with none))
        ("Submit") (fields_with none)).mainTable =
        init_logger.mainTable ++ [r1, r2] ∧
      r1.codeStateID ≠ r2.codeStateID ∧
      (log_event (log_event init_logger ("Submit") (fields_with none))
        ("Submit") (fields_with none)).codeStates.length =
        init_logger.codeStates.length + 2 :=
  claim_C10_null_code_never_deduped.2.1 init_logger ("Submit") ("Submit")
    (fields_with none) (fields_with none) rfl rfl

theorem gossc_not_found {s : LoggerState} {sid : String} {cond : Int}
    (h : s.subjects.find? (fun x => x.subjectID == sid) = none) :
    get_or_set_subject_condition s (some sid) cond =
      (cond,
       { s with subjects :=
           s.subjects ++ [{ subjectID := sid, isInterventionGroup := cond }] }) := by
  simp only [get_or_set_subject_condition]
  rw [h]

theorem gossc_found {s : LoggerState} {sid : String} {cond : Int} {r : SubjectRow}
    (h : s.subjects.find? (fun x => x.subjectID == sid) = some r) :
    get_or_set_subject_condition s (some sid) cond = (r.isInterventionGroup, s) := by
  simp only [get_or_set_subject_condition]
  rw [h]

/-- Claim C3: the subject condition is first-write-wins.  The first call
for a subject id absent from the Subject table creates the row with the
supplied condition and returns it, and every later call with that id
returns the originally stored condition whatever condition is passed; in
particular storing 1 for S1 and then asking with 0 returns 1 both
times. -/
theorem claim_C3_condition_first_write_wins :
    (∀ (s : LoggerState) (sid : String) (cond : Int),
      (∀ r ∈ s.subjects, r.subjectID ≠ sid) →
      get_or_set_subject_condition s (some sid) cond =
        (cond,
         { s with subjects :=
             s.subjects ++ [{ subjectID := sid, isInterventionGroup := cond }] })) ∧
    (∀ (s : LoggerState) (sid : String) (cond : Int) (r : SubjectRow),
      s.subjects.find? (fun x => x.subjectID == sid) = some r →
      get_or_set_subject_condition s (some sid) cond = (r.isInterventionGroup, s)) ∧
    (∀ (s : LoggerState) (sid : String) (c1 c2 : Int),
      (∀ r ∈ s.subjects, r.subjectID ≠ sid) →
      (get_or_set_subject_condition s (some sid) c1).1 = c1 ∧
      (get_or_set_subject_condition
        (get_or_set_subject_condition s (some sid) c1).2 (some sid) c2).1 = c1 ∧
      (get_or_set_subject_condition
        (get_or_set_subject_condition s (some sid) c1).2 (some sid) c2).2 =
        (get_or_set_subject_condition s (some sid) c1).2) ∧
    ((get_or_set_subject_condition init_logger (some ("S1")) 1).1 = 1 ∧
      (get_or_set_subject_condition
        (get_or_set_subject_condition init_logger (some ("S1")) 1).2
        (some ("S1")) 0).1 = 1) := by
  have hnf : ∀ (s : LoggerState) (sid : String),
      (∀ r ∈ s.subjects, r.subjectID ≠ sid) →
      s.subjects.find? (fun x => x.subjectID == sid) = none := by
    intro s sid h
    exact List.find?_eq_none.mpr fun x hx => by
      simpa [beq_iff_eq] using h x hx
  refine ⟨?_, ?_, ?_, rfl, rfl⟩
  · intro s sid cond h
    exact gossc_not_found (hnf s sid h)
  · intro s sid cond r h
    exact gossc_found h
  · intro s sid c1 c2 h
    have h1 : get_or_set_subject_condition s (some sid) c1 =
        (c1,
         { s with subjects :=
             s.subjects ++ [{ subjectID := sid, isInterventionGroup := c1 }] }) :=
      gossc_not_found (hnf s sid h)
    have hfind2 : (get_or_set_subject_condition s (some sid) c1).2.subjects.find?
        (fun x => x.subjectID == sid) =
        some { subjectID := sid, isInterventionGroup := c1 } := by
      rw [h1, List.find?_append, hnf s sid h]
      simp
    have h2 : get_or_set_subject_condition
        (get_or_set_subject_condition s (some sid) c1).2 (some sid) c2 =
        (c1, (get_or_set_subject_condition s (some sid) c1).2) :=
      gossc_found hfind2
    refine ⟨by rw [h1], by rw [h2], by rw [h2]⟩

/-- Witness for claim C3 on the fresh store: the first write for S1
creates the row with condition 1 and returns it, and a later call passing
0 still returns 1 and changes nothing. -/
theorem claim_C3_condition_first_write_wins_witness :
    (get_or_set_subject_condition init_logger (some ("S1")) 1).1 = 1 ∧
    (get_or_set_subject_condition
      (get_or_set_subject_condition init_logger (some ("S1")) 1).2
      (some ("S1")) 0).1 = 1 ∧
    (get_or_set_subject_condition
      (get_or_set_subject_condition init_logger (some ("S1")) 1).2
      (some ("S1")) 0).2 =
      (get_or_set_subject_condition init_logger (some ("S1")) 1).2 :=
  claim_C3_condition_first_write_wins.2.2.1 init_logger ("S1") 1 0
    (by decide)

/-- Claim C7: starter code is upserted.  set_starter_code creates the
Problem row if absent and then unconditionally overwrites its StarterCode,
so after any set the getter returns exactly the text just set, while a
problem id never set reads back as an absence value; in particular setting
a then b for P1 makes the getter return b, and P2 reads none. -/
theorem claim_C7_starter_code_upsert :
    (∀ (s : LoggerState) (pid : String) (c : Option String),
      get_starter_code (set_starter_code s pid c) pid = c) ∧
    (∀ (s : LoggerState) (pid : String),
      (∀ r ∈ s.problems, r.problemID ≠ pid) →
      get_starter_code s pid = none) ∧
    (get_starter_code (set_starter_code (set_starter_code init_logger ("P1")
      (some ("a"))) ("P1") (some ("b"))) ("P1") = some ("b") ∧
     get_starter_code (set_starter_code (set_starter_code init_logger ("P1")
      (some ("a"))) ("P1") (some ("b"))) ("P2") = none) := by
  refine ⟨?_, ?_, rfl, rfl⟩
  · intro s pid c
    have hpres : ∀ x : ProblemRow,
        ((if x.problemID == pid then { x with starterCode := c } else x) :
          ProblemRow).problemID = x.problemID := by
      intro x
      split <;> rfl
    have hexists : ∃ x ∈ (if s.problems.any (fun r => r.problemID == pid) then
        s.problems
        else s.problems ++
          [{ problemID := pid, starterCode := none, subgoals := none }]),
        x.problemID = pid := by
      by_cases hany : s.problems.any (fun r => r.problemID == pid) = true
      · obtain ⟨x, hx, hpx⟩ := List.any_eq_true.mp hany
        exact ⟨x, by simp only [if_pos hany]; exact hx, beq_iff_eq.mp hpx⟩
      · refine ⟨{ problemID := pid, starterCode := none, subgoals := none }, ?_, rfl⟩
        simp [hany]
    obtain ⟨x0, hx0m, hx0p⟩ := hexists
    have hmem : (if x0.problemID == pid then { x0 with starterCode := c } else x0) ∈
        (set_starter_code s pid c).problems :=
      List.mem_map.mpr ⟨x0, hx0m, rfl⟩
    have hsome : ((set_starter_code s pid c).problems.find?
        (fun r => r.problemID == pid)).isSome := by
      refine List.find?_isSome.mpr ⟨_, hmem, ?_⟩
      rw [hpres x0, hx0p]
      exact beq_self_eq_true pid
    obtain ⟨r, hr⟩ := Option.isSome_iff_exists.mp hsome
    have hrm := List.mem_of_find?_eq_some hr
    have hrp := List.find?_some hr
    obtain ⟨y, hym, hy⟩ := List.mem_map.mp hrm
    have hrsc : r.starterCode = c := by
      by_cases hyp : (y.problemID == pid) = true
      · rw [← hy]
        simp [hyp]
      · rw [← hy] at hrp
        simp only [hyp] at hrp
        rw [if_neg (by simp [hyp])] at hrp
        exact absurd hrp hyp
    unfold get_starter_code
    rw [hr]
    exact hrsc
  · intro s pid h
    have hnone : s.problems.find? (fun r => r.problemID == pid) = none :=
      List.find?_eq_none.mpr fun x hx => by
        simpa [beq_iff_eq] using h x hx
    unfold get_starter_code
    rw [hnone]

/-- Witness for claim C7: on the fresh store no Problem row exists, so the
getter returns the absence value for P2. -/
theorem claim_C7_starter_code_upsert_witness :
    get_starter_code init_logger ("P2") = none :=
  claim_C7_starter_code_upsert.2.1 init_logger ("P2") (by decide)

/-- Counterexample to claim C9 as stated: calling with the empty-string
subject id on the fresh store does touch storage, inserting a Subject row,
because the source only short-circuits on None, not on empty strings. -/
theorem claim_C9_counterexample :
    ¬((get_or_set_subject_condition init_logger (some ("")) 0).2.subjects =
      init_logger.subjects) := by
  decide

/-- Claim C9 (amended): only an absent (None) subject id returns the
supplied condition unchanged and leaves every persisted table exactly as
it was; an empty-string subject id takes the ordinary lookup-or-insert
path, here creating a Subject row keyed by the empty string. -/
theorem claim_C9_absent_subject_frame :
    (∀ (s : LoggerState) (cond : Int),
      get_or_set_subject_condition s none cond = (cond, s)) ∧
    ((get_or_set_subject_condition init_logger (some ("")) 0).2.subjects =
      [{ subjectID := (""), isInterventionGroup := 0 }]) :=
  ⟨fun _ _ => rfl, rfl⟩

/-!
## Claims about the Dataset Reader
-/

/-- Counterexample to claim C2 as stated: its final clause says that with
the ordering flag false the rows stay in file order, but the source tests
the raw metadata value for Python truthiness, and the non-empty string
false is truthy — so a dataset whose metadata records the flag as false
is sorted anyway, returning its two rows in the opposite of file order.
The two Order keys are distinct, so this output is forced for any correct
sort and is independent of tie-ordering questions. -/
theorem claim_C2_counterexample :
    (ds_false_flag.metadata.filter
      (fun p => p.1 == ("IsEventOrderingConsistent"))).map (fun p => p.2) =
      [Val.str ("false")] ∧
    get_main_table ds_false_flag =
      Except.ok
        [{ eventID := Val.int 2, subjectID := Val.null, problemID := Val.null,
           codeStateID := Val.null, order := Val.int 1, score := Val.null },
         { eventID := Val.int 1, subjectID := Val.null, problemID := Val.null,
           codeStateID := Val.null, order := Val.int 2, score := Val.null }] ∧
    ([{ eventID := Val.int 2, subjectID := Val.null, problemID := Val.null,
        codeStateID := Val.null, order := Val.int 1, score := Val.null },
      { eventID := Val.int 1, subjectID := Val.null, problemID := Val.null,
        codeStateID := Val.null, order := Val.int 2, score := Val.null }] :
      List DRow) ≠ ds_false_flag.mainRows := by
  refine ⟨rfl, rfl, ?_⟩
  decide

/-- Claim C2 (amended): get_main_table takes the ordering branch on the
Python truthiness of the metadata value — rows stay in file order exactly
when the IsEventOrderingConsistent value is falsy (an absent row defaults
to False), so any non-empty string, even false or 0, enables ordering.
With ordering enabled, Global scope returns a permutation of the file
rows pairwise ordered by Order ascending (no tie-order guarantee: pandas
sorts a single-column key with its default unstable quicksort), while
Restricted scope returns the rows stably sorted by the semicolon-split
scope columns followed by Order — a permutation, pairwise ordered by the
multi-column key, with every key class kept in file order, since pandas
sorts multi-column keys with a stable lexsort.  On the specification's
Restricted example the A-rows come before the B-rows, each ordered by
Order ascending. -/
theorem claim_C2_main_table_ordering :
    (∀ (d : Dataset) (v : Option Val),
      get_metadata_property d (("IsEventOrderingConsistent")) = Except.ok v →
      truthyOpt v = false →
      get_main_table d = Except.ok d.mainRows) ∧
    (∀ (d : Dataset) (v : Option Val) (tbl : List DRow),
      get_metadata_property d (("IsEventOrderingConsistent")) = Except.ok v →
      truthyOpt v = true →
      get_metadata_property d (("EventOrderScope")) =
        Except.ok (some (Val.str ("Global"))) →
      get_main_table d = Except.ok tbl →
      tbl.Perm d.mainRows ∧
      List.Pairwise (rowRel [("Order")]) tbl) ∧
    (∀ (d : Dataset) (v : Option Val) (s : String) (tbl : List DRow),
      get_metadata_property d (("IsEventOrderingConsistent")) = Except.ok v →
      truthyOpt v = true →
      get_metadata_property d (("EventOrderScope")) =
        Except.ok (some (Val.str ("Restricted"))) →
      get_metadata_property d (("EventOrderScopeColumns")) =
        Except.ok (some (Val.str s)) →
      s.length ≠ 0 →
      get_main_table d = Except.ok tbl →
      tbl.Perm d.mainRows ∧
      List.Pairwise (rowRel (splitOnSep (Char.ofNat 59) s ++ [("Order")])) tbl ∧
      ∀ k : List Val,
        tbl.filter (fun r => keyOf (splitOnSep (Char.ofNat 59) s ++ [("Order")]) r == k) =
          d.mainRows.filter
            (fun r => keyOf (splitOnSep (Char.ofNat 59) s ++ [("Order")]) r == k)) ∧
    (get_main_table ds_restricted =
      Except.ok
        [{ eventID := Val.int 2, subjectID := Val.str ("A"), problemID := Val.null,
           codeStateID := Val.null, order := Val.int 1, score := Val.null },
         { eventID := Val.int 3, subjectID := Val.str ("A"), problemID := Val.null,
           codeStateID := Val.null, order := Val.int 2, score := Val.null },
         { eventID := Val.int 1, subjectID := Val.str ("B"), problemID := Val.null,
           codeStateID := Val.null, order := Val.int 2, score := Val.null }]) := by
  refine ⟨?_, ?_, ?_, rfl⟩
  · intro d v h1 h2
    exact get_main_table_not_ordered h1 h2
  · intro d v tbl h1 h2 h3 h4
    rw [get_main_table_global h1 h2 h3] at h4
    exact ⟨(sort_values_ok h4).1, (sort_values_ok h4).2.1⟩
  · intro d v s tbl h1 h2 h3 hc h5 h4
    rw [get_main_table_restricted h1 h2 h3 hc h5] at h4
    exact sort_values_ok h4

/-- Witness for claim C2 on the specification's Restricted example: the
returned table is a permutation of the file rows and is pairwise ordered
by the (SubjectID, Order) key. -/
theorem claim_C2_main_table_ordering_witness :
    ([{ eventID := Val.int 2, subjectID := Val.str ("A"), problemID := Val.null,
        codeStateID := Val.null, order := Val.int 1, score := Val.null },
      { eventID := Val.int 3, subjectID := Val.str ("A"), problemID := Val.null,
        codeStateID := Val.null, order := Val.int 2, score := Val.null },
      { eventID := Val.int 1, subjectID := Val.str ("B"), problemID := Val.null,
        codeStateID := Val.null, order := Val.int 2, score := Val.null }] :
      List DRow).Perm ds_restricted.mainRows ∧
    List.Pairwise (rowRel [("SubjectID"), ("Order")])
      ([{ eventID := Val.int 2, subjectID := Val.str ("A"), problemID := Val.null,
          codeStateID := Val.null, order := Val.int 1, score := Val.null },
        { eventID := Val.int 3, subjectID := Val.str ("A"), problemID := Val.null,
          codeStateID := Val.null, order := Val.int 2, score := Val.null },
        { eventID := Val.int 1, subjectID := Val.str ("B"), problemID := Val.null,
          codeStateID := Val.null, order := Val.int 2, score := Val.null }] :
        List DRow) := by
  have h := claim_C2_main_table_ordering.2.2.1 ds_restricted
    (some (Val.str ("true"))) ("SubjectID")
    [{ eventID := Val.int 2, subjectID := Val.str ("A"), problemID := Val.null,
       codeStateID := Val.null, order := Val.int 1, score := Val.null },
     { eventID := Val.int 3, subjectID := Val.str ("A"), problemID := Val.null,
       codeStateID := Val.null, order := Val.int 2, score := Val.null },
     { eventID := Val.int 1, subjectID := Val.str ("B"), problemID := Val.null,
       codeStateID := Val.null, order := Val.int 2, score := Val.null }]
    rfl rfl rfl rfl (by decide) rfl
  exact ⟨h.1, h.2.1⟩

/-- Claim C4: get_trace returns, for the main-table rows matching the
subject and the problem in post-ordering row order, the code texts of
their distinct CodeStateIDs, duplicates collapsed keeping first
occurrences: the id list fed into the code lookup has no duplicates, is a
subsequence of the matching rows' id column, covers exactly its values,
and the trace maps it through get_code_for_id; the [5,5,7] example yields
the two texts for 5 and 7 in that order. -/
theorem claim_C4_trace_dedup :
    (∀ (d : Dataset) (sid pid : Val) (tbl : List DRow),
      get_main_table d = Except.ok tbl →
      (dedupFirst ((tbl.filter (fun r =>
          valEqB r.subjectID sid && valEqB r.problemID pid)).map
          (fun r => r.codeStateID))).Nodup ∧
      (dedupFirst ((tbl.filter (fun r =>
          valEqB r.subjectID sid && valEqB r.problemID pid)).map
          (fun r => r.codeStateID))).Sublist
        ((tbl.filter (fun r =>
          valEqB r.subjectID sid && valEqB r.problemID pid)).map
          (fun r => r.codeStateID)) ∧
      (∀ v : Val, v ∈ dedupFirst ((tbl.filter (fun r =>
          valEqB r.subjectID sid && valEqB r.problemID pid)).map
          (fun r => r.codeStateID)) ↔
        v ∈ (tbl.filter (fun r =>
          valEqB r.subjectID sid && valEqB r.problemID pid)).map
          (fun r => r.codeStateID)) ∧
      get_trace d sid pid =
        (dedupFirst ((tbl.filter (fun r =>
          valEqB r.subjectID sid && valEqB r.problemID pid)).map
          (fun r => r.codeStateID))).mapM
          (fun i => get_code_for_id d (some i))) ∧
    (get_trace ds_trace (Val.str ("S")) (Val.str ("P")) =
      Except.ok [some (Val.str ("c5")), some (Val.str ("c7"))]) := by
  refine ⟨?_, rfl⟩
  intro d sid pid tbl h
  refine ⟨nodup_dedupFirst _, sublist_dedupFirst _,
    fun v => mem_dedupFirst _ v, ?_⟩
  simp [get_trace, h, Bind.bind, Except.bind]

/-- Witness for claim C4 on the trace example dataset: the deduplicated id
list for subject S and problem P is duplicate-free and the trace equals
the mapped lookups. -/
theorem claim_C4_trace_dedup_witness :
    (dedupFirst ((ds_trace.mainRows.filter (fun r =>
        valEqB r.subjectID (Val.str ("S")) &&
        valEqB r.problemID (Val.str ("P")))).map
        (fun r => r.codeStateID))).Nodup ∧
    get_trace ds_trace (Val.str ("S")) (Val.str ("P")) =
      (dedupFirst ((ds_trace.mainRows.filter (fun r =>
        valEqB r.subjectID (Val.str ("S")) &&
        valEqB r.problemID (Val.str ("P")))).map
        (fun r => r.codeStateID))).mapM
        (fun i => get_code_for_id ds_trace (some i)) := by
  have h := claim_C4_trace_dedup.1 ds_trace (Val.str ("S")) (Val.str ("P"))
    ds_trace.mainRows rfl
  exact ⟨h.1, h.2.2.2⟩

/-- Claim C6: a dataset declaring a truthy ordering flag and Restricted
scope whose EventOrderScopeColumns value is missing from the metadata or
present as the empty string makes get_main_table raise the configuration
error instead of returning a table. -/
theorem claim_C6_restricted_no_columns_error :
    ∀ (d : Dataset) (v : Option Val),
      get_metadata_property d (("IsEventOrderingConsistent")) = Except.ok v →
      truthyOpt v = true →
      get_metadata_property d (("EventOrderScope")) =
        Except.ok (some (Val.str ("Restricted"))) →
      ((d.metadata.filter (fun p => p.1 == ("EventOrderScopeColumns"))).map
          (fun p => p.2) = [] ∨
        (d.metadata.filter (fun p => p.1 == ("EventOrderScopeColumns"))).map
          (fun p => p.2) = [Val.str ("")]) →
      get_main_table d =
        Except.error (("EventOrderScope is restricted by no EventOrderScopeColumns given")) := by
  intro d v h1 h2 h3 hcols
  have h4 : get_metadata_property d (("EventOrderScopeColumns")) =
      Except.ok (some (Val.str (""))) := by
    rcases hcols with hc | hc <;>
      · unfold get_metadata_property
        rw [hc]
        try rfl
  exact get_main_table_restricted_empty h1 h2 h3 h4 (Or.inr rfl)

/-- Witness for claim C6: the dataset declaring Restricted scope with no
EventOrderScopeColumns row raises the configuration error. -/
theorem claim_C6_restricted_no_columns_error_witness :
    get_main_table ds_empty_cols =
      Except.error (("EventOrderScope is restricted by no EventOrderScopeColumns given")) :=
  claim_C6_restricted_no_columns_error ds_empty_cols (some (Val.str ("1")))
    rfl rfl rfl (Or.inl rfl)

/-- Claim C8, settled against the code as written: the filter expression
of get_code_for_event_id compares the column-name constant itself with the
event id, so the lookup raises a KeyError on a dataset holding exactly one
row with EventID 1 instead of resolving that row's CodeStateID — even
though the code text is present and reachable through get_code_for_id. -/
theorem claim_C8_event_lookup_keyerror :
    get_code_for_event_id ds_event (Val.int 1) =
      Except.error (("KeyError: false")) ∧
    get_code_for_id ds_event (some (Val.int 5)) =
      Except.ok (some (Val.str ("x"))) :=
  ⟨rfl, rfl⟩

/-- Claim C5: save_subset writes exactly the filtered main table, a
code-states file holding exactly the snapshots whose CodeStateID appears
among the surviving rows — no orphans, no omissions, file order kept —
and the metadata table unchanged. -/
theorem claim_C5_save_subset_exact :
    ∀ (d : Dataset) (f : List DRow → List DRow)
      (out : List DRow × List CSRow × List (String × Val)),
      save_subset d f = Except.ok out →
      (∃ tbl : List DRow, get_main_table d = Except.ok tbl ∧ out.1 = f tbl) ∧
      (∀ r : CSRow, r ∈ out.2.1 ↔ r ∈ d.codeStates ∧
        r.codeStateID ∈ out.1.map (fun x => x.codeStateID)) ∧
      out.2.1.Sublist d.codeStates ∧
      out.2.2 = d.metadata := by
  intro d f out h
  cases hmt : get_main_table d with
  | error e =>
    rw [save_subset, hmt] at h
    exact absurd h (by simp [Bind.bind, Except.bind])
  | ok tbl =>
    rw [save_subset, hmt] at h
    simp only [Bind.bind, Except.bind, Except.ok.injEq] at h
    subst h
    refine ⟨⟨tbl, rfl, rfl⟩, ?_, List.filter_sublist _, rfl⟩
    intro r
    rw [List.mem_filter]
    constructor
    · rintro ⟨hm, hp⟩
      refine ⟨hm, ?_⟩
      have := List.elem_iff.mp hp
      exact (mem_dedupFirst _ _).mp this
    · rintro ⟨hm, hp⟩
      refine ⟨hm, ?_⟩
      exact List.elem_iff.mpr ((mem_dedupFirst _ _).mpr hp)

/-- Witness for claim C5 on the subset example with the Score-positive
filter: the surviving snapshot list is a subsequence of the code-states
file and the metadata is unchanged. -/
theorem claim_C5_save_subset_exact_witness :
    ([{ codeStateID := Val.int 1, code := Val.str ("a") }] : List CSRow).Sublist
      ds_subset.codeStates ∧
    ([] : List (String × Val)) = ds_subset.metadata := by
  have h := claim_C5_save_subset_exact ds_subset score_pos_filterer
    ([{ eventID := Val.int 1, subjectID := Val.null, problemID := Val.null,
        codeStateID := Val.int 1, order := Val.null, score := Val.int 1 }],
     [{ codeStateID := Val.int 1, code := Val.str ("a") }],
     []) rfl
  exact ⟨h.2.2.1, h.2.2.2⟩
